import Mathlib

/-!
Verification of the AuditLens / Receivables AI frontend rendering logic.

The definitions below are a shallow embedding of the JavaScript frontend
(the v2.5 single-page app and, where the two differ, the v2.1 app in
frontend/app.js).  Numbers are modelled as rationals, JavaScript
Math.round as floor of x + 1/2, the falsy-default idiom x || d on
numbers as Option.getD, and on strings as a test against the empty
string.
-/

namespace AuditLens

/-- JavaScript Math.round: the closest integer, ties rounded up. -/
def jround (q : ℚ) : ℤ := ⌊q + 1 / 2⌋

/-- JavaScript expression a || b on strings: b when a is empty (falsy). -/
def jsOrStr (a b : String) : String := if a = "" then b else a

/-- JavaScript x || 0 applied to a possibly missing numeric field. -/
def jsNum (v : Option ℚ) : ℚ := v.getD 0

/-- A match record as consumed by the PO Matching table: the fields of
the backend match object that the fulfilled-percentage cell reads. -/
structure MatchRec where
  invoiceAmount : ℚ
  poAmount : ℚ
  poAlreadyInvoiced : Option ℚ
deriving DecidableEq

/-- The fulfilled percentage rendered for one match row, from
matching(): m.poAmount>0?Math.round(((m.poAlreadyInvoiced||0)+m.invoiceAmount)/m.poAmount*100):0. -/
def fulPct (m : MatchRec) : ℤ :=
  if 0 < m.poAmount then
    jround ((m.poAlreadyInvoiced.getD 0 + m.invoiceAmount) / m.poAmount * 100)
  else 0

/-- The amount cell of an open anomaly card: the number shown and
whether the savings label is appended. -/
structure RiskCell where
  shown : ℚ
  savingsLabel : Bool
deriving DecidableEq

/-- Rendering of the amount-at-risk v of an open anomaly, from
anomaliesTab(): a.amount_at_risk>=0?fmtx(a.amount_at_risk):fmtx(Math.abs(a.amount_at_risk))+savings. -/
def riskCell (v : ℚ) : RiskCell :=
  if 0 ≤ v then { shown := v, savingsLabel := false }
  else { shown := |v|, savingsLabel := true }

/-- An anomaly record as consumed by the Anomalies view. -/
structure Anomaly where
  id : String
  status : String
  amount_at_risk : Option ℚ
deriving DecidableEq

/-- The open anomalies, from anomaliesTab(): S.anomalies.filter(a=>a.status==='open'). -/
def openAnomalies (l : List Anomaly) : List Anomaly :=
  l.filter (fun a => a.status == "open")

/-- The at-risk header total, from anomaliesTab():
open.reduce((s,a)=>s+(a.amount_at_risk||0),0). -/
def riskTotal (l : List Anomaly) : ℚ :=
  (openAnomalies l).foldl (fun s a => s + a.amount_at_risk.getD 0) 0

/-- The fixed bucket keys of the AR aging chart, from dashboard():
bk=[current, 1_30, 31_60, 61_90, 90_plus]. -/
def agingBucketKeys : List String := ["current", "1_30", "31_60", "61_90", "90_plus"]

/-- The bars of the AR aging chart: one bar per fixed key, with amount
ag.buckets[b.k]||0; the backend aging object is modelled as an
association list. -/
def agingBars (buckets : List (String × ℚ)) : List (String × ℚ) :=
  agingBucketKeys.map (fun k => (k, (buckets.lookup k).getD 0))

/-- A document record as consumed by the Triage view: type and triage
lane; the lane is absent for documents not yet triaged. -/
structure Doc where
  id : String
  type : String
  triageLane : Option String
deriving DecidableEq

/-- The invoice-type documents of the Triage view, from triageTab():
S.docs.filter(d=>d.type==='invoice'||d.type==='credit_note'||d.type==='debit_note'). -/
def triageInvoices (docs : List Doc) : List Doc :=
  docs.filter (fun d =>
    d.type == "invoice" || d.type == "credit_note" || d.type == "debit_note")

/-- The auto-approved invoices, from triageTab():
inv.filter(i=>i.triageLane==='AUTO_APPROVE'). -/
def triageAuto (docs : List Doc) : List Doc :=
  (triageInvoices docs).filter (fun d => d.triageLane == some "AUTO_APPROVE")

/-- The review-lane invoices, from triageTab(). -/
def triageReview (docs : List Doc) : List Doc :=
  (triageInvoices docs).filter (fun d => d.triageLane == some "REVIEW")

/-- The blocked invoices, from triageTab(). -/
def triageBlocked (docs : List Doc) : List Doc :=
  (triageInvoices docs).filter (fun d => d.triageLane == some "BLOCK")

/-- The displayed auto-approve rate, from triageTab():
inv.length>0?Math.round(auto.length/inv.length*100):0. -/
def triageAutoRate (docs : List Doc) : ℤ :=
  if 0 < (triageInvoices docs).length then
    jround (((triageAuto docs).length : ℚ) / ((triageInvoices docs).length : ℚ) * 100)
  else 0

/-- The rows of the Auto-Approved table, from triageTab():
auto.slice(0,15).map(...): only the first fifteen are rendered. -/
def autoSectionRows (docs : List Doc) : List Doc := (triageAuto docs).take 15

/-- The cards of the Review Queue section, from triageTab(): review.map(...). -/
def reviewSectionRows (docs : List Doc) : List Doc := triageReview docs

/-- The cards of the Blocked Invoices section, from triageTab(): blocked.map(...). -/
def blockedSectionRows (docs : List Doc) : List Doc := triageBlocked docs

/-- How the settings tab of app() renders: the policy configuration
screen or the access-restricted message. -/
inductive SettingsRender where
  | policyScreen
  | accessRestricted
deriving DecidableEq

/-- The role the settings gate tests, from app():
S.authUser?.role||S.currentRole, with a missing auth user modelled as none. -/
def effRole (authRole : Option String) (currentRole : String) : String :=
  jsOrStr (authRole.getD "") currentRole

/-- The role the navigation uses, from app():
ur=S.authUser?.role||S.currentRole||analyst. -/
def navRole (authRole : Option String) (currentRole : String) : String :=
  jsOrStr (effRole authRole currentRole) "analyst"

/-- The settings tab body, from app():
[cfo,vp,manager].includes(S.authUser?.role||S.currentRole)?settingsTab():access-restricted. -/
def settingsMain (authRole : Option String) (currentRole : String) : SettingsRender :=
  if (["cfo", "vp", "manager"] : List String).contains (effRole authRole currentRole) then
    SettingsRender.policyScreen
  else SettingsRender.accessRestricted

/-- The sidebar navigation tab ids, from app(): the fixed tab list with
the AP Policy entry pushed only when isMgr holds. -/
def navTabs (authRole : Option String) (currentRole : String) : List String :=
  let ur := navRole authRole currentRole
  let isAdmin := ur == "cfo" || ur == "vp"
  let isMgr := isAdmin || ur == "manager"
  ["dashboard", "triage", "documents", "anomalies", "matching", "vendors", "contracts",
    "upload"] ++ (if isMgr then ["settings"] else [])

/-- Sixteen auto-approved invoices: input on which the Auto-Approved
table truncates. -/
def cdocs : List Doc :=
  (List.range 16).map (fun i =>
    { id := toString i, type := "invoice", triageLane := some "AUTO_APPROVE" })

/-- The sixteenth of the sixteen auto-approved invoices. -/
def cdoc : Doc := { id := toString 15, type := "invoice", triageLane := some "AUTO_APPROVE" }

/-- A one-document state used to witness the triage-sections theorem. -/
def wdocs : List Doc := [{ id := "a", type := "invoice", triageLane := some "REVIEW" }]

/-- A line item of a document: description, quantity, unit price and
stored total. -/
structure LineItem where
  description : String
  quantity : ℚ
  unitPrice : ℚ
  total : ℚ
deriving DecidableEq

/-- One edited field of a line item; numeric inputs are parse results,
none meaning the input did not parse. -/
inductive LineEditField where
  | qty (v : Option ℚ)
  | price (v : Option ℚ)
  | desc (s : String)
deriving DecidableEq

/-- Application of one field edit to a line item, from saveEdits():
quantity:parseFloat(ef[k])||0, unitPrice:parseFloat(ef[k])||0, or
description:ef[k]. -/
def editItem (li : LineItem) (f : LineEditField) : LineItem :=
  match f with
  | LineEditField.qty v => { li with quantity := jsNum v }
  | LineEditField.price v => { li with unitPrice := jsNum v }
  | LineEditField.desc s => { li with description := s }

/-- One step of the saveEdits() loop over li_ keys: out-of-range indices
are skipped (if(lis[i])), and the edited item's total is reset to
lis[i].quantity*lis[i].unitPrice. -/
def applyLineEdit (lis : List LineItem) (e : ℕ × LineEditField) : List LineItem :=
  match lis[e.1]? with
  | none => lis
  | some li =>
      let li1 := editItem li e.2
      lis.set e.1 { li1 with total := li1.quantity * li1.unitPrice }

/-- The line items submitted by saveEdits(): the stored items with every
li_ edit applied, in the iteration order of the edit-field keys. -/
def saveEditsLineItems (lis : List LineItem) (edits : List (ℕ × LineEditField)) :
    List LineItem :=
  edits.foldl applyLineEdit lis

/-- The live total of an edited modal row, from modal():
tot=(parseFloat(q)||0)*(parseFloat(pr)||0). -/
def liveTotal (q p : Option ℚ) : ℚ := jsNum q * jsNum p

/-- JavaScript split on a single-character separator, as used by
bindEvents() on e.dataset.override.split. -/
def splitOnChar (c : Char) : List Char → List (List Char)
  | [] => [[]]
  | x :: xs =>
      if x = c then [] :: splitOnChar c xs
      else
        match splitOnChar c xs with
        | [] => [[x]]
        | y :: ys => (x :: y) :: ys

/-- The override controls rendered by triageTab(), as pairs of document
id and target lane: blocked cards offer AUTO_APPROVE and REVIEW, review
cards offer AUTO_APPROVE and BLOCK. -/
def overrideControls (docs : List Doc) : List (List Char × List Char) :=
  ((triageBlocked docs).flatMap (fun d =>
    [(d.id.toList, "AUTO_APPROVE".toList), (d.id.toList, "REVIEW".toList)])) ++
  ((triageReview docs).flatMap (fun d =>
    [(d.id.toList, "AUTO_APPROVE".toList), (d.id.toList, "BLOCK".toList)]))

/-- The data-override attribute of a control, from triageTab():
the document id, a colon, and the lane. -/
def datasetOf (ctrl : List Char × List Char) : List Char := ctrl.1 ++ ':' :: ctrl.2

/-- The override request built by the bindEvents() handler: the second
split component as the lane and the fixed audit reason, from
fd.append(lane,...) and fd.append(reason,Manual override). -/
def overrideRequest (ds : List Char) : Option (List Char) × List Char :=
  ((splitOnChar ':' ds)[1]?, "Manual override".toList)

/-- Concrete line items used to witness the saved-edits theorem. -/
def lis0 : List LineItem :=
  [{ description := "widget", quantity := 2, unitPrice := 5, total := 10 }]

/-- A concrete edit of the quantity of the first line item. -/
def edits0 : List (ℕ × LineEditField) := [(0, LineEditField.qty (some 3))]

/-- A one-document state used to witness the override-request theorem. -/
def odocs : List Doc := [{ id := "inv-7", type := "invoice", triageLane := some "BLOCK" }]

/-- A blocked invoice whose id itself contains a colon, on which the
override handler's split misreads the lane. -/
def baddocs : List Doc := [{ id := "x:y", type := "invoice", triageLane := some "BLOCK" }]

/-- The /api/upload response body as read by uploadFile(): the success
flag and the optional error text. -/
structure UploadResponse where
  success : Bool
  error : Option String
deriving DecidableEq

/-- The frontend state uploadFile() touches: the local document list
and the processing indicator (the file name being processed). -/
structure UploadState where
  docs : List Doc
  proc : Option String
deriving DecidableEq

/-- The outcome of one uploadFile() run: the state after the handler,
the toast of the failure branch (none when the upload succeeded and the
success summary is shown instead), and whether loadAll() runs. -/
structure UploadStep where
  state : UploadState
  failToast : Option String
  reload : Bool
deriving DecidableEq

/-- JavaScript r&&r.success for a possibly null response. -/
def respSuccess (r : Option UploadResponse) : Bool :=
  match r with
  | some resp => resp.success
  | none => false

/-- The uploadFile() response handling of the v2.5 frontend: after
clearInterval and S.proc=null, if(r&&r.success) toast and loadAll, else
toast(r?.error||Extraction failed) and re-render. -/
def uploadFile25 (st : UploadState) (r : Option UploadResponse) : UploadStep :=
  let cleared : UploadState := { docs := st.docs, proc := none }
  match r with
  | some resp =>
      if resp.success then { state := cleared, failToast := none, reload := true }
      else
        { state := cleared,
          failToast := some (jsOrStr (resp.error.getD "") "Extraction failed"),
          reload := false }
  | none => { state := cleared, failToast := some "Extraction failed", reload := false }

/-- The uploadFile() response handling of the v2.1 frontend
(frontend/app.js): the failure toast is always the fixed text
Extraction failed. -/
def uploadFile21 (st : UploadState) (r : Option UploadResponse) : UploadStep :=
  let cleared : UploadState := { docs := st.docs, proc := none }
  match r with
  | some resp =>
      if resp.success then { state := cleared, failToast := none, reload := true }
      else { state := cleared, failToast := some "Extraction failed", reload := false }
  | none => { state := cleared, failToast := some "Extraction failed", reload := false }

/-- A state mid-upload, used for the C6 counterexample and witness. -/
def st0 : UploadState := { docs := [], proc := some "scan.pdf" }

/-- A failed extraction response that carries an error text. -/
def r0 : Option UploadResponse := some { success := false, error := some "Invoice too blurry" }

/-- The /api/dashboard response as far as loadAll() reads it:
S.dash=d and S.api=d.api_mode. -/
structure DashResponse where
  api_mode : String

/-- The /api/documents response: if(dc)S.docs=dc.documents||[]. -/
structure DocumentsResponse where
  documents : Option (List Doc)

/-- The /api/matches response: if(m)S.matches=m.matches||[]; the field
name matches is a Lean keyword, hence matchList. -/
structure MatchesResponse where
  matchList : Option (List MatchRec)

/-- The /api/anomalies response: if(an)S.anomalies=an.anomalies||[]. -/
structure AnomaliesResponse where
  anomalies : Option (List Anomaly)

/-- A vendor risk profile row as rendered by vendorsTab(). -/
structure VendorProfile where
  vendorNormalized : String
  riskScore : ℚ
  riskLevel : String

/-- The /api/vendors response: if(vnd)S.vendors=vnd.vendors||[]. -/
structure VendorsResponse where
  vendors : Option (List VendorProfile)

/-- The policy object rendered by settingsTab(), with the threshold
fields the configuration screen exposes. -/
structure Policy where
  matching_mode : String
  require_grn_for_auto_approve : Bool
  require_po_for_auto_approve : Bool
  amount_tolerance_pct : ℚ
  price_tolerance_pct : ℚ
  over_invoice_pct : ℚ
  tax_tolerance_pct : ℚ
  grn_qty_tolerance_pct : ℚ
  grn_amount_tolerance_pct : ℚ
  short_shipment_threshold_pct : ℚ
  auto_approve_min_confidence : ℚ
  auto_approve_max_vendor_risk : ℚ
  block_min_vendor_risk : ℚ
  duplicate_window_days : ℚ
  flag_round_number_invoices : Bool
  flag_weekend_invoices : Bool
  max_invoice_age_days : ℚ

/-- The /api/policy response: if(pol)S.policy=pol.policy||{}, the empty
default modelled as none. -/
structure PolicyResponse where
  policy : Option Policy

/-- The frontend collections loadAll() refreshes; the /api/triage
payload is opaque to the frontend (stored whole in S.triageData), so it
is a type parameter. -/
structure FrontState (T : Type) where
  dash : Option DashResponse
  api : String
  docs : List Doc
  matchList : List MatchRec
  anomalies : List Anomaly
  vendors : List VendorProfile
  triageData : Option T
  policy : Option Policy

/-- The seven parallel api() results loadAll() awaits, each null on
failure. -/
structure LoadResponses (T : Type) where
  dash : Option DashResponse
  documents : Option DocumentsResponse
  matchesResp : Option MatchesResponse
  anomalies : Option AnomaliesResponse
  vendors : Option VendorsResponse
  triage : Option T
  policy : Option PolicyResponse

/-- loadAll(): every collection is assigned only under an if() guard on
its own response, so a null response leaves the previous value. -/
def loadAll {T : Type} (st : FrontState T) (r : LoadResponses T) : FrontState T :=
  { dash := match r.dash with | some d => some d | none => st.dash,
    api := match r.dash with | some d => d.api_mode | none => st.api,
    docs := match r.documents with | some dc => dc.documents.getD [] | none => st.docs,
    matchList := match r.matchesResp with | some m => m.matchList.getD [] | none => st.matchList,
    anomalies := match r.anomalies with | some a => a.anomalies.getD [] | none => st.anomalies,
    vendors := match r.vendors with | some v => v.vendors.getD [] | none => st.vendors,
    triageData := match r.triage with | some t => some t | none => st.triageData,
    policy := match r.policy with | some p => p.policy | none => st.policy }

/-- The ways a fetch inside api() can turn out: a thrown network error,
or a response with a status and a body (none when r.json() throws). -/
inductive FetchOutcome (V : Type) where
  | networkError : FetchOutcome V
  | response (status : ℕ) (body : Option V) : FetchOutcome V

/-- The api() helper of the v2.5 frontend: null on a thrown fetch or
parse error, null on 401 (logout path) and on 403 (toast path), the
parsed body otherwise. -/
def apiResult {V : Type} : FetchOutcome V → Option V
  | FetchOutcome.networkError => none
  | FetchOutcome.response 401 _ => none
  | FetchOutcome.response _ none => none
  | FetchOutcome.response 403 _ => none
  | FetchOutcome.response _ (some b) => some b

/-- The initial frontend state, used to witness the loadAll frame
theorem. -/
def stW : FrontState ℕ :=
  { dash := none, api := "unknown", docs := [], matchList := [], anomalies := [],
    vendors := [], triageData := none, policy := none }

/-- A refresh in which every api() call failed. -/
def rW : LoadResponses ℕ :=
  { dash := none, documents := none, matchesResp := none, anomalies := none,
    vendors := none, triage := none, policy := none }

/-- Concrete match used to witness the fulfilled-percentage theorem. -/
def m1 : MatchRec := { invoiceAmount := 100, poAmount := 200, poAlreadyInvoiced := some 50 }

/-- Concrete aging data used to witness the aging-chart theorem. -/
def buckets0 : List (String × ℚ) := [("current", 100)]

/-- Folding additions from an initial accumulator is the accumulator
plus the sum of the mapped list. -/
theorem foldl_add_getD (l : List Anomaly) (s : ℚ) :
    l.foldl (fun acc a => acc + a.amount_at_risk.getD 0) s
      = s + (l.map (fun a => a.amount_at_risk.getD 0)).sum := by
  induction l generalizing s with
  | nil => simp
  | cons a l ih => simp [List.foldl_cons, ih, List.sum_cons]; ring

/-- C1: a match row with strictly positive PO amount shows
round(100 * (already-invoiced defaulting to 0 + invoice amount) / PO amount);
a row whose PO amount is zero or negative shows 0. -/
theorem fulfilled_pct_formula (m : MatchRec) :
    (0 < m.poAmount →
      fulPct m = jround (100 * (m.poAlreadyInvoiced.getD 0 + m.invoiceAmount) / m.poAmount)) ∧
    (m.poAmount ≤ 0 → fulPct m = 0) := by
  constructor
  · intro h
    have e : (m.poAlreadyInvoiced.getD 0 + m.invoiceAmount) / m.poAmount * 100
        = 100 * (m.poAlreadyInvoiced.getD 0 + m.invoiceAmount) / m.poAmount := by
      ring
    rw [fulPct, if_pos h, e]
  · intro h
    rw [fulPct, if_neg (not_lt.mpr h)]

/-- Witness for C1 at a concrete match: PO 200, already invoiced 50,
invoice 100. -/
theorem fulfilled_pct_formula_witness :
    fulPct m1 = jround (100 * (m1.poAlreadyInvoiced.getD 0 + m1.invoiceAmount) / m1.poAmount) :=
  (fulfilled_pct_formula m1).1 (by norm_num [m1])

/-- C2: an open anomaly with non-negative amount-at-risk is shown as
that amount with no savings label; a negative one is shown as its
absolute value with the savings label, the stored sign deciding the
label and never being altered. -/
theorem anomaly_risk_display (v : ℚ) :
    (0 ≤ v → riskCell v = { shown := v, savingsLabel := false }) ∧
    (v < 0 → riskCell v = { shown := |v|, savingsLabel := true }) := by
  constructor
  · intro h; rw [riskCell, if_pos h]
  · intro h; rw [riskCell, if_neg (not_le.mpr h)]

/-- Witness for C2 at the concrete stored value -250. -/
theorem anomaly_risk_display_witness :
    riskCell (-250) = { shown := 250, savingsLabel := true } := by
  rw [(anomaly_risk_display (-250)).2 (by norm_num)]
  norm_num

/-- C3: the at-risk header total is the signed sum of amount-at-risk
(missing counted as 0) over exactly the anomalies whose status is open. -/
theorem anomalies_risk_total (l : List Anomaly) :
    riskTotal l
      = (l.map (fun a => if a.status = "open" then a.amount_at_risk.getD 0 else 0)).sum := by
  rw [riskTotal, foldl_add_getD, zero_add]
  induction l with
  | nil => rfl
  | cons a l ih =>
    by_cases h : a.status = "open" <;>
      simp [openAnomalies, List.filter_cons, h, List.sum_cons, ih] at ih ⊢

/-- C4: the aging chart renders exactly the five fixed buckets in order,
and a bucket absent from the data renders with amount 0. -/
theorem aging_chart_buckets (buckets : List (String × ℚ)) :
    ((agingBars buckets).map Prod.fst = ["current", "1_30", "31_60", "61_90", "90_plus"]) ∧
    ((agingBars buckets).length = 5) ∧
    (∀ k, k ∈ agingBucketKeys → buckets.lookup k = none → (k, (0 : ℚ)) ∈ agingBars buckets) := by
  refine ⟨?_, ?_, ?_⟩
  · simp [agingBars, agingBucketKeys]
  · simp [agingBars, agingBucketKeys]
  · intro k hk hnone
    have h : (k, (buckets.lookup k).getD 0) ∈ agingBars buckets :=
      List.mem_map_of_mem _ hk
    simpa [hnone] using h

/-- Witness for C4: with data only for the current bucket, the 1-30
bucket still renders, with amount 0. -/
theorem aging_chart_buckets_witness :
    ("1_30", (0 : ℚ)) ∈ agingBars buckets0 :=
  (aging_chart_buckets buckets0).2.2 "1_30" (by simp [agingBucketKeys]) (by decide)

/-- C5 counterexample: with sixteen auto-approved invoices, the
sixteenth has lane AUTO_APPROVE yet is not among the rendered rows of
the Auto-Approved section, so section membership is not equivalent to
the lane. -/
theorem triage_auto_section_truncated :
    cdoc ∈ triageInvoices cdocs ∧ cdoc.triageLane = some "AUTO_APPROVE" ∧
    cdoc ∉ autoSectionRows cdocs := by decide

/-- C5 (amended): for invoice-type documents, membership in the Review
and Blocked sections is equivalent to the corresponding lane; the
Auto-Approved table shows only the first fifteen auto-approved
documents, so membership implies the lane, and is equivalent to it when
at most fifteen documents are auto-approved; the sections are pairwise
disjoint; the auto-approve rate is round(100 * auto / total) for a
positive total and 0 otherwise. -/
theorem triage_sections (docs : List Doc) (d : Doc) (hd : d ∈ triageInvoices docs) :
    (d ∈ reviewSectionRows docs ↔ d.triageLane = some "REVIEW") ∧
    (d ∈ blockedSectionRows docs ↔ d.triageLane = some "BLOCK") ∧
    (d ∈ autoSectionRows docs → d.triageLane = some "AUTO_APPROVE") ∧
    ((triageAuto docs).length ≤ 15 →
      (d ∈ autoSectionRows docs ↔ d.triageLane = some "AUTO_APPROVE")) ∧
    (d ∈ autoSectionRows docs → d ∉ reviewSectionRows docs ∧ d ∉ blockedSectionRows docs) ∧
    (d ∈ reviewSectionRows docs → d ∉ blockedSectionRows docs) ∧
    (0 < (triageInvoices docs).length →
      triageAutoRate docs
        = jround (100 * ((triageAuto docs).length : ℚ) / ((triageInvoices docs).length : ℚ))) ∧
    ((triageInvoices docs).length = 0 → triageAutoRate docs = 0) := by
  have hrev : d ∈ reviewSectionRows docs ↔ d.triageLane = some "REVIEW" := by
    simp [reviewSectionRows, triageReview, List.mem_filter, hd]
  have hblk : d ∈ blockedSectionRows docs ↔ d.triageLane = some "BLOCK" := by
    simp [blockedSectionRows, triageBlocked, List.mem_filter, hd]
  have hauto : d ∈ autoSectionRows docs → d.triageLane = some "AUTO_APPROVE" := by
    intro h
    have h2 : d ∈ triageAuto docs := List.take_subset _ _ h
    simpa [triageAuto, List.mem_filter, hd] using h2
  refine ⟨hrev, hblk, hauto, ?_, ?_, ?_, ?_, ?_⟩
  · intro hle
    rw [autoSectionRows, List.take_of_length_le hle]
    simp [triageAuto, List.mem_filter, hd]
  · intro h
    have hl := hauto h
    constructor
    · intro hr; rw [hrev] at hr; rw [hl] at hr; simp at hr
    · intro hb; rw [hblk] at hb; rw [hl] at hb; simp at hb
  · intro hr hb
    rw [hrev] at hr; rw [hblk] at hb; rw [hr] at hb; simp at hb
  · intro hpos
    have e : ((triageAuto docs).length : ℚ) / ((triageInvoices docs).length : ℚ) * 100
        = 100 * ((triageAuto docs).length : ℚ) / ((triageInvoices docs).length : ℚ) := by
      ring
    rw [triageAutoRate, if_pos hpos, e]
  · intro hz
    rw [triageAutoRate, if_neg (by omega)]

/-- Witness for C5 at a one-invoice state whose lane is REVIEW. -/
theorem triage_sections_witness :
    ({ id := "a", type := "invoice", triageLane := some "REVIEW" } : Doc)
      ∈ reviewSectionRows wdocs :=
  ((triage_sections wdocs _ (by decide)).1).mpr (by decide)

/-- C9: the policy configuration screen renders exactly for the roles
manager, vp and cfo; every other role gets the access-restricted
message, and the AP Policy navigation entry is present exactly for
those three roles. -/
theorem policy_access_roles (authRole : Option String) (currentRole : String) :
    (settingsMain authRole currentRole = SettingsRender.policyScreen
      ↔ effRole authRole currentRole ∈ (["manager", "vp", "cfo"] : List String)) ∧
    (settingsMain authRole currentRole = SettingsRender.accessRestricted
      ↔ effRole authRole currentRole ∉ (["manager", "vp", "cfo"] : List String)) ∧
    ("settings" ∈ navTabs authRole currentRole
      ↔ effRole authRole currentRole ∈ (["manager", "vp", "cfo"] : List String)) := by
  have hmem : effRole authRole currentRole ∈ (["cfo", "vp", "manager"] : List String)
      ↔ effRole authRole currentRole ∈ (["manager", "vp", "cfo"] : List String) := by
    simp [or_comm, or_left_comm]
  have h1 : settingsMain authRole currentRole = SettingsRender.policyScreen
      ↔ effRole authRole currentRole ∈ (["manager", "vp", "cfo"] : List String) := by
    rw [settingsMain]
    by_cases h : effRole authRole currentRole ∈ (["cfo", "vp", "manager"] : List String)
    · simp [List.contains, List.elem_iff, h, hmem.mp h]
    · simp [List.contains, List.elem_iff, h, hmem.not.mp h]
  refine ⟨h1, ?_, ?_⟩
  · rw [settingsMain]
    by_cases h : effRole authRole currentRole ∈ (["cfo", "vp", "manager"] : List String)
    · simp [List.contains, List.elem_iff, h, hmem.mp h]
    · simp [List.contains, List.elem_iff, h, hmem.not.mp h]
  · rw [navTabs]
    by_cases h0 : effRole authRole currentRole = ""
    · rw [navRole, h0, jsOrStr]
      simp
    · have hnav : navRole authRole currentRole = effRole authRole currentRole := by
        rw [navRole, jsOrStr, if_neg h0]
      rw [hnav]
      simp [List.mem_append, or_comm, or_left_comm]

/-- Applying one line edit preserves the number of line items. -/
theorem applyLineEdit_length (lis : List LineItem) (e : ℕ × LineEditField) :
    (applyLineEdit lis e).length = lis.length := by
  rw [applyLineEdit]
  cases h : lis[e.1]? <;> simp

/-- Applying one line edit leaves every other index unchanged. -/
theorem applyLineEdit_getElem_ne (lis : List LineItem) (e : ℕ × LineEditField) (i : ℕ)
    (h : e.1 ≠ i) : (applyLineEdit lis e)[i]? = lis[i]? := by
  rw [applyLineEdit]
  cases he : lis[e.1]? with
  | none => rfl
  | some li => exact List.getElem?_set_ne h

/-- After one line edit at an in-range index, the item there satisfies
total = quantity * unit price. -/
theorem applyLineEdit_total (lis : List LineItem) (e : ℕ × LineEditField)
    (h : e.1 < lis.length) :
    ∀ li, (applyLineEdit lis e)[e.1]? = some li → li.total = li.quantity * li.unitPrice := by
  intro li hli
  cases he : lis[e.1]? with
  | none =>
    rw [List.getElem?_eq_none_iff] at he
    omega
  | some li0 =>
    rw [applyLineEdit, he] at hli
    simp only [List.getElem?_set_self h, Option.some_inj] at hli
    rw [← hli]

/-- The saved line-item list has the same length as the stored one. -/
theorem saveEdits_length (edits : List (ℕ × LineEditField)) (lis : List LineItem) :
    (saveEditsLineItems lis edits).length = lis.length := by
  induction edits generalizing lis with
  | nil => rfl
  | cons e es ih =>
    rw [saveEditsLineItems, List.foldl_cons, ← saveEditsLineItems, ih, applyLineEdit_length]

/-- Indices never edited keep their stored line item. -/
theorem saveEdits_getElem_notMem (edits : List (ℕ × LineEditField)) (lis : List LineItem)
    (i : ℕ) (h : i ∉ edits.map Prod.fst) :
    (saveEditsLineItems lis edits)[i]? = lis[i]? := by
  induction edits generalizing lis with
  | nil => rfl
  | cons e es ih =>
    rw [List.map_cons, List.mem_cons, not_or] at h
    rw [saveEditsLineItems, List.foldl_cons, ← saveEditsLineItems, ih _ h.2,
      applyLineEdit_getElem_ne _ _ _ (Ne.symm h.1)]

/-- C7: every line item touched by an edit is submitted with
total = quantity * unit price (unparsable numeric input coerced to 0),
and the live total of an edited row is the parsed quantity times the
parsed price. -/
theorem save_edits_totals (lis : List LineItem) (edits : List (ℕ × LineEditField)) :
    (∀ i, i ∈ edits.map Prod.fst → i < lis.length →
      ∀ li, (saveEditsLineItems lis edits)[i]? = some li →
        li.total = li.quantity * li.unitPrice) ∧
    (∀ q p : Option ℚ, liveTotal q p = jsNum q * jsNum p) := by
  constructor
  · induction edits generalizing lis with
    | nil => intro i hi; simp at hi
    | cons e es ih =>
      intro i hi hlen li hget
      rw [saveEditsLineItems, List.foldl_cons, ← saveEditsLineItems] at hget
      by_cases hmem : i ∈ es.map Prod.fst
      · exact ih (applyLineEdit lis e) i hmem
          (by rw [applyLineEdit_length]; exact hlen) li hget
      · rw [List.map_cons, List.mem_cons] at hi
        rcases hi with rfl | hi2
        · rw [saveEdits_getElem_notMem es _ _ hmem] at hget
          exact applyLineEdit_total lis e hlen li hget
        · exact absurd hi2 hmem
  · intro q p; rfl

/-- Witness for C7: editing the quantity of the single stored item to 3
at price 5 submits total 15. -/
theorem save_edits_totals_witness :
    (saveEditsLineItems lis0 edits0)[0]?
        = some { description := "widget", quantity := 3, unitPrice := 5, total := 15 } ∧
    ({ description := "widget", quantity := 3, unitPrice := 5, total := 15 } : LineItem).total
        = ({ description := "widget", quantity := 3, unitPrice := 5, total := 15 } : LineItem).quantity
          * ({ description := "widget", quantity := 3, unitPrice := 5, total := 15 } : LineItem).unitPrice := by
  have hev : (saveEditsLineItems lis0 edits0)[0]?
      = some { description := "widget", quantity := 3, unitPrice := 5, total := 15 } := by
    norm_num [saveEditsLineItems, applyLineEdit, editItem, lis0, edits0, jsNum]
  exact ⟨hev, (save_edits_totals lis0 edits0).1 0 (by decide) (by decide) _ hev⟩

/-- Splitting a list free of the separator yields that list alone. -/
theorem splitOnChar_not_mem (c : Char) (l : List Char) (h : c ∉ l) :
    splitOnChar c l = [l] := by
  induction l with
  | nil => rfl
  | cons x xs ih =>
    rw [List.mem_cons, not_or] at h
    rw [splitOnChar, if_neg (fun hx => h.1 hx.symm), ih h.2]

/-- Splitting around the first separator occurrence detaches the
separator-free head. -/
theorem splitOnChar_append (c : Char) (l r : List Char) (h : c ∉ l) :
    splitOnChar c (l ++ c :: r) = l :: splitOnChar c r := by
  induction l with
  | nil => simp [splitOnChar]
  | cons x xs ih =>
    rw [List.mem_cons, not_or] at h
    rw [List.cons_append, splitOnChar, if_neg (fun hx => h.1 hx.symm), ih h.2]

/-- C8 counterexample: for a blocked invoice whose id is x:y, the
approve control's dataset splits so that the request's lane field is y,
an id fragment that is neither the control's lane nor any of the three
lanes. -/
theorem override_lane_colon_id :
    ("x:y".toList, "AUTO_APPROVE".toList) ∈ overrideControls baddocs ∧
    (overrideRequest (datasetOf ("x:y".toList, "AUTO_APPROVE".toList))).1
        = some "y".toList ∧
    (some "y".toList : Option (List Char)) ≠ some "AUTO_APPROVE".toList ∧
    "y".toList ≠ "REVIEW".toList ∧ "y".toList ≠ "BLOCK".toList := by decide

/-- C8 (amended): every override request carries the non-empty audit
reason Manual override; the clicked control's lane is one of
AUTO_APPROVE, REVIEW and BLOCK, and whenever the document id contains
no colon the request's lane field is exactly that control lane. -/
theorem override_request_reason (docs : List Doc) (ctrl : List Char × List Char)
    (hc : ctrl ∈ overrideControls docs) :
    (overrideRequest (datasetOf ctrl)).2 = "Manual override".toList ∧
    (overrideRequest (datasetOf ctrl)).2 ≠ [] ∧
    (ctrl.2 = "AUTO_APPROVE".toList ∨ ctrl.2 = "REVIEW".toList ∨
      ctrl.2 = "BLOCK".toList) ∧
    (':' ∉ ctrl.1 → (overrideRequest (datasetOf ctrl)).1 = some ctrl.2) := by
  have hlane : ctrl.2 = "AUTO_APPROVE".toList ∨ ctrl.2 = "REVIEW".toList ∨
      ctrl.2 = "BLOCK".toList := by
    rw [overrideControls, List.mem_append] at hc
    rcases hc with hc | hc <;>
      · rw [List.mem_flatMap] at hc
        obtain ⟨d, _, hm⟩ := hc
        simp only [List.mem_cons, List.not_mem_nil, or_false] at hm
        rcases hm with rfl | rfl <;> simp
  refine ⟨rfl, by show "Manual override".toList ≠ []; decide, hlane, ?_⟩
  intro hid
  have hnc : ':' ∉ ctrl.2 := by
    rcases hlane with h | h | h <;> rw [h] <;> decide
  have hsplit : splitOnChar ':' (datasetOf ctrl) = ctrl.1 :: [ctrl.2] := by
    rw [datasetOf, splitOnChar_append ':' _ _ hid, splitOnChar_not_mem ':' _ hnc]
  rw [overrideRequest, hsplit]
  rfl

/-- Witness for C8 at a blocked invoice with id inv-7 and the approve
control. -/
theorem override_request_reason_witness :
    (overrideRequest (datasetOf ("inv-7".toList, "AUTO_APPROVE".toList))).2 ≠ [] ∧
    (overrideRequest (datasetOf ("inv-7".toList, "AUTO_APPROVE".toList))).1
        = some "AUTO_APPROVE".toList := by
  have h := override_request_reason odocs ("inv-7".toList, "AUTO_APPROVE".toList) (by decide)
  exact ⟨h.2.1, h.2.2.2 (by decide)⟩

/-- C6 counterexample: the v2.1 frontend handles a failed response
carrying the error text Invoice too blurry by toasting the fixed text
Extraction failed, not the response's error text. -/
theorem upload_error_text_dropped :
    (uploadFile21 st0 r0).failToast = some "Extraction failed" ∧
    r0 = some { success := false, error := some "Invoice too blurry" } ∧
    (some "Extraction failed" : Option String) ≠ some "Invoice too blurry" := by
  exact ⟨rfl, rfl, by decide⟩

/-- C6 (amended): on an absent or unsuccessful upload response both
frontends keep the document list, clear the processing indicator, toast
an error and skip the reload; the v2.5 frontend toasts the response's
non-empty error text when present and Extraction failed otherwise,
while the v2.1 frontend always toasts Extraction failed; in both, the
reload runs exactly on success. -/
theorem upload_failure_handling (st : UploadState) (r : Option UploadResponse) :
    ((uploadFile25 st r).reload = true ↔ respSuccess r = true) ∧
    ((uploadFile21 st r).reload = true ↔ respSuccess r = true) ∧
    (respSuccess r = false →
      (uploadFile25 st r).state.docs = st.docs ∧
      (uploadFile25 st r).state.proc = none ∧
      (uploadFile21 st r).state.docs = st.docs ∧
      (uploadFile21 st r).state.proc = none ∧
      (uploadFile21 st r).failToast = some "Extraction failed" ∧
      (∀ e : String, e ≠ "" → r.bind UploadResponse.error = some e →
        (uploadFile25 st r).failToast = some e) ∧
      (r.bind UploadResponse.error = none →
        (uploadFile25 st r).failToast = some "Extraction failed") ∧
      (r.bind UploadResponse.error = some "" →
        (uploadFile25 st r).failToast = some "Extraction failed")) := by
  rcases r with _ | ⟨s, err⟩
  · refine ⟨by simp [uploadFile25, respSuccess], by simp [uploadFile21, respSuccess], ?_⟩
    intro _
    refine ⟨rfl, rfl, rfl, rfl, rfl, ?_, fun _ => rfl, ?_⟩
    · intro e _ he
      exact absurd (show (none : Option String) = some e from he) (by simp)
    · intro he
      exact absurd (show (none : Option String) = some "" from he) (by simp)
  · cases s
    · refine ⟨by simp [uploadFile25, respSuccess], by simp [uploadFile21, respSuccess], ?_⟩
      intro _
      refine ⟨rfl, rfl, rfl, rfl, rfl, ?_, ?_, ?_⟩
      · intro e he hbind
        have hb : err = some e := hbind
        simp [uploadFile25, hb, jsOrStr, he]
      · intro hbind
        have hb : err = none := hbind
        simp [uploadFile25, hb, jsOrStr]
      · intro hbind
        have hb : err = some "" := hbind
        simp [uploadFile25, hb, jsOrStr]
    · refine ⟨by simp [uploadFile25, respSuccess], by simp [uploadFile21, respSuccess], ?_⟩
      intro h
      exact absurd h (by simp [respSuccess])

/-- Witness for C6 at a failed response carrying an error text: the
v2.5 frontend surfaces that text. -/
theorem upload_failure_handling_witness :
    (uploadFile25 st0 r0).failToast = some "Invoice too blurry" := by
  have h := (upload_failure_handling st0 r0).2.2 rfl
  exact h.2.2.2.2.2.1 "Invoice too blurry" (by decide) rfl

/-- C10: each of the seven collections is overwritten only when its own
api() read returns a non-null response, a failed read leaving the
previous value in place, and api() returns null on a thrown fetch and
on a 401 response. -/
theorem load_all_frame {T : Type} (st : FrontState T) (r : LoadResponses T) :
    (r.dash = none → (loadAll st r).dash = st.dash ∧ (loadAll st r).api = st.api) ∧
    (r.documents = none → (loadAll st r).docs = st.docs) ∧
    (r.matchesResp = none → (loadAll st r).matchList = st.matchList) ∧
    (r.anomalies = none → (loadAll st r).anomalies = st.anomalies) ∧
    (r.vendors = none → (loadAll st r).vendors = st.vendors) ∧
    (r.triage = none → (loadAll st r).triageData = st.triageData) ∧
    (r.policy = none → (loadAll st r).policy = st.policy) ∧
    (∀ V : Type, apiResult (FetchOutcome.networkError : FetchOutcome V) = none) ∧
    (∀ (V : Type) (b : Option V), apiResult (FetchOutcome.response 401 b) = none) := by
  refine ⟨?_, ?_, ?_, ?_, ?_, ?_, ?_, fun V => rfl, ?_⟩
  · intro h; exact ⟨by simp [loadAll, h], by simp [loadAll, h]⟩
  · intro h; simp [loadAll, h]
  · intro h; simp [loadAll, h]
  · intro h; simp [loadAll, h]
  · intro h; simp [loadAll, h]
  · intro h; simp [loadAll, h]
  · intro h; simp [loadAll, h]
  · intro V b
    rcases b with _ | b <;> rfl

/-- Witness for C10 at the initial state with every read failed: the
document list is kept and a network error yields null. -/
theorem load_all_frame_witness :
    (loadAll stW rW).docs = stW.docs ∧
    apiResult (FetchOutcome.networkError : FetchOutcome ℕ) = none := by
  have h := load_all_frame stW rW
  exact ⟨h.2.1 rfl, h.2.2.2.2.2.2.2.1 ℕ⟩

end AuditLens
